import Mathlib

/-!
Verification of the node-boilerplate HTTP service layer.

The development shallowly embeds the TypeScript source:
  * `Server` (the HTTP server shell: health route, middleware order,
    OpenAPI contract validation, error translator, database setup) from
    `src/interfaces/http/server.ts`;
  * `MongooseDatabase` (persistence lifecycle) from `jest/setup-db.ts`;
  * `UserService` / `UserController` (the user CRUD example) from
    `src/domain/user/service/user.service.ts` and
    `src/interfaces/http/controllers/user.controller.ts`.

Promises are embedded as total functions whose fallibility is explicit:
an operation that can reject returns an `Except`/`Option`-shaped result.
The mongoose driver is modelled by an environment function supplying the
outcome of `mongoose.connect`, and by a counter of connection handles.
-/

namespace Boilerplate

/-- A user record, mirroring `IUser` from
`src/domain/user/interfaces/user.interface.ts`:
`{id, name, email, createdAt}`. Timestamps are kept as opaque strings. -/
structure IUser where
  id : String
  name : String
  email : String
  createdAt : String
deriving DecidableEq, Repr

/-- The document store as the list of saved user documents, in insertion
order. `Muser.findOne` is first-match search over it. -/
abbrev Store := List IUser

/-- `UserRepositoryRead.findUserById` (`Muser.findOne({id})`): first stored
user with the given id, or `none`. -/
def findUserById (store : Store) (id : String) : Option IUser :=
  store.find? (fun u => u.id == id)

/-- `UserRepositoryRead.findUserByEmail` (`Muser.findOne({email})`): first
stored user with the given email, or `none`. -/
def findUserByEmail (store : Store) (email : String) : Option IUser :=
  store.find? (fun u => u.email == email)

/-- `UserRepositoryWrite.createUser`: `new Muser(userData); user.save()` —
appends the document to the store and returns it. -/
def repositoryCreateUser (store : Store) (u : IUser) : Store × IUser :=
  (store ++ [u], u)

namespace UserService

/-- `UserService.getUserById` from
`src/domain/user/service/user.service.ts` (lines cited as
`user.repository.write.ts` 53–65 in the claim sources). The declared TS
return type is `Promise<IUser | null>`, embedded as
`Except String (Option IUser)`:

```ts
try {
  const user = await this.userRepositoryRead.findUserById(id);
  if (!user) { throw new Error('User not found'); }
  return user;
} catch (error) {
  throw new Error(`Error retrieving user by ID: ${error.message}`);
}
```

The inner `throw` on a missing user is caught by the surrounding `catch`
and re-thrown wrapped, so absence becomes a rejection, never `ok none`. -/
def getUserById (store : Store) (id : String) : Except String (Option IUser) :=
  match findUserById store id with
  | none => Except.error ("Error retrieving user by ID: " ++ "User not found")
  | some u => Except.ok (some u)

/-- Parameters of `UserService.createUser` (`IParamsCreateUser`): the
controller always supplies a concrete `createdAt`. -/
structure CreateParams where
  id : String
  name : String
  email : String
  createdAt : String
deriving DecidableEq, Repr

/-- `UserService.createUser`:

```ts
try {
  const existingUser = await this.userRepositoryRead.findUserByEmail(params.email);
  if (existingUser) { throw new Error('A user with this email already exists'); }
  return await this.userRepositoryWrite.createUser(params);
} catch (error) {
  throw new Error(`Error creating user: ${error.message}`);
}
```

On a duplicate email the inner throw is re-thrown wrapped and no write
happens; otherwise the document is saved. The result carries the updated
store so that the write (or its absence) is observable. -/
def createUser (store : Store) (p : CreateParams) : Except String (Store × IUser) :=
  match findUserByEmail store p.email with
  | some _ =>
      Except.error ("Error creating user: " ++ "A user with this email already exists")
  | none => Except.ok (repositoryCreateUser store ⟨p.id, p.name, p.email, p.createdAt⟩)

end UserService

/-- Response bodies, by shape, as the handlers build them:
`{message}`, `{error}`, `{status: "OK"}`, a serialized user, a user list. -/
inductive Body
  | message (m : String)
  | errorField (m : String)
  | statusOK
  | user (u : IUser)
  | users (l : List IUser)
deriving DecidableEq, Repr

/-- An HTTP response: status code plus JSON body. -/
structure HttpResponse where
  status : Nat
  body : Body
deriving DecidableEq, Repr

namespace UserController

/-- `UserController.getUserById` from
`src/interfaces/http/controllers/user.controller.ts` (lines 38–53):

```ts
try {
  const user = await this.userService.getUserById(id);
  if (!user) { res.status(404).json({ message: 'User not found' }); return; }
  res.status(200).json(user);
} catch (error) {
  res.status(500).json({ error: error.message });
}
``` -/
def getUserById (store : Store) (id : String) : HttpResponse :=
  match UserService.getUserById store id with
  | Except.error e => ⟨500, Body.errorField e⟩
  | Except.ok none => ⟨404, Body.message "User not found"⟩
  | Except.ok (some u) => ⟨200, Body.user u⟩

/-- `UserController.createUser` (lines 58–71): on success 201 with the new
user, on any rejection 400 with `{error: message}`. Returns the resulting
store alongside the response so writes are observable. -/
def createUser (store : Store) (p : UserService.CreateParams) : Store × HttpResponse :=
  match UserService.createUser store p with
  | Except.error e => (store, ⟨400, Body.errorField e⟩)
  | Except.ok (store', u) => (store', ⟨201, Body.user u⟩)

end UserController

/-- Server-side log entries, by structure rather than raw JSON text:
`Logger.info`/`Logger.error` lines, the `server.error` record
`JSON.stringify({eventName: 'server.error', message, stack})`, and the
`JSON.stringify(err)` of an `HttpError`. -/
inductive LogEntry
  | info (m : String)
  | error (m : String)
  | serverError (message : String) (stack : String)
  | serializedHttpError (status : Nat) (message : String)
deriving DecidableEq, Repr

/-- Errors reaching the terminal error handler, as the handler's
`instanceof` chain distinguishes them: an
`express-openapi-validator` `HttpError` (carries an explicit status), a
plain `Error` (message and stack, no status), or any other thrown value. -/
inductive ServerError
  | http (status : Nat) (message : String)
  | err (message : String) (stack : String)
  | raw (v : String)
deriving DecidableEq, Repr

namespace Server

/-- The error translator installed by `Server.customizers`
(src lines 73–97):

```ts
(err, req, res, _next) => {
  if (err instanceof HttpError) {
    if (err.status === 500) { Logger.error(JSON.stringify(err)); }
    res.status(err.status).json({ message: err.message });
    return;
  }
  if (err instanceof Error) {
    Logger.error(JSON.stringify({ eventName: 'server.error',
                                  message: err.message, stack: err.stack }));
  }
  res.status(500).json({ message: 'Internal Server Error' });
}
```

Result: the response sent and the log entries written, in order. -/
def errorTranslator (e : ServerError) : HttpResponse × List LogEntry :=
  match e with
  | ServerError.http s m =>
      (⟨s, Body.message m⟩,
       if s = 500 then [LogEntry.serializedHttpError s m] else [])
  | ServerError.err m stack =>
      (⟨500, Body.message "Internal Server Error"⟩, [LogEntry.serverError m stack])
  | ServerError.raw _ =>
      (⟨500, Body.message "Internal Server Error"⟩, [])

end Server

/-- An inbound HTTP request: method, path, and the parsed JSON body as a
field map (`express.json`). Requests without a body carry `[]`. -/
structure Request where
  method : String
  path : String
  body : List (String × String)
deriving DecidableEq, Repr

/-- `body.find?` on a field name: whether the parsed JSON body has the
property. -/
def hasField (body : List (String × String)) (f : String) : Bool :=
  (body.find? (fun kv => kv.1 == f)).isSome

/-- The `required` list of the `NewUser` schema in
`src/contracts/service.yaml` (components.schemas.NewUser, lines 208–227):
`[id, name, email]`; `createdAt` is optional. -/
def NewUser.requiredFields : List String := ["id", "name", "email"]

/-- The request-validation step of the `express-openapi-validator`
middleware installed by `Server.middlewares`, embedded for the operation
the theorems exercise: `POST /users` bodies are checked against the
contract's `NewUser` schema, and a missing required property yields an
`HttpError` with status 400 whose message names the property (the
validator's `request/body must have required property ...`). Other
operations' checks are not needed by the theorems below and pass through.
`some (status, message)` means the request is rejected before any route
below the middleware runs. -/
def contractValidator (req : Request) : Option (Nat × String) :=
  if req.method == "POST" && req.path == "/users" then
    match NewUser.requiredFields.find? (fun f => ! hasField req.body f) with
    | some f => some (400, "request" ++ "/body must have required property " ++ f)
    | none => none
  else none

/-- A pluggable controller (`IController.getRoutes`), as the dispatch
function of the routes it mounts: `none` when no route of this controller
matches the request, otherwise the updated store and the response. -/
def Controller := Request → Store → Option (Store × HttpResponse)

/-- In-order dispatch over the mounted controllers
(`Server.routes`: `controllers.forEach(c => app.use('/', c.getRoutes()))`):
the first controller with a matching route handles the request. -/
def dispatchControllers (cs : List Controller) (req : Request) (store : Store) :
    Option (Store × HttpResponse) :=
  match cs with
  | [] => none
  | c :: rest =>
      match c req store with
      | some r => some r
      | none => dispatchControllers rest req store

namespace Server

/-- The request pipeline the `Server` constructor assembles, in
registration order (src lines 46–61):

1. `app.get('/health', (req,res) => res.status(200).json({status:'OK'}))`;
2. the static middlewares (json/urlencoded parsing, tracking, helmet —
   transparent on this request model) and the OpenAPI validator
   (`Server.middlewares`), which rejects a non-conforming request with an
   `HttpError` that falls through to the error translator;
3. the controller routes (`Server.routes`);
4. an unmatched request falls to Express's default 404 handler.

The validator is a parameter so that theorems can quantify over the
spec-validation configuration; the store is threaded to make writes
observable. -/
def handle (validator : Request → Option (Nat × String))
    (controllers : List Controller) (store : Store) (req : Request) :
    Store × HttpResponse :=
  if req.method == "GET" && req.path == "/health" then
    (store, ⟨200, Body.statusOK⟩)
  else
    match validator req with
    | some (s, m) => (store, (errorTranslator (ServerError.http s m)).1)
    | none =>
        match dispatchControllers controllers req store with
        | some r => r
        | none => (store, ⟨404, Body.message ("Cannot " ++ req.method ++ " " ++ req.path)⟩)

end Server

/-! ### Persistence lifecycle (`MongooseDatabase`, `Server.databaseSetup`)

`mongoose.connect` is modelled by an environment function giving, per URI,
the outcome the driver would produce (resolve or reject). Connection
handles created by successful `connect` calls are numbered, so distinct
calls yield distinct handles and "how many connections were created" is
observable. -/

/-- Outcome of `mongoose.connect` per URI: `ok` resolves, `error e`
rejects with message `e`. -/
def ConnectEnv := String → Except String Unit

/-- Driver-side state: how many connection handles `connect` has created
so far, and the currently established one (`mongoose.connection`), if any. -/
structure DbState where
  handlesCreated : Nat
  current : Option Nat
deriving DecidableEq, Repr

/-- `MongooseDatabase` from `jest/setup-db.ts`: URI, database name, and
the privately held `DB_CONNECTION: mongoose.Connection | undefined`,
as the numbered handle it stores. -/
structure MongooseDatabase where
  DB_URI : String
  DB_NAME : String
  DB_CONNECTION : Option Nat
deriving DecidableEq, Repr

/-- Result of a `start()` call: the instance and driver state afterwards,
and the rejection surfaced to the caller, if any. -/
structure StartResult where
  db : MongooseDatabase
  st : DbState
  thrown : Option String
deriving DecidableEq, Repr

namespace MongooseDatabase

/-- `MongooseDatabase.start` (jest/setup-db.ts lines 46–51):

```ts
public async start() {
  if (!this.DB_CONNECTION) {
    await mongoose.connect(this.DB_URI, { dbName: this.DB_NAME });
    this.DB_CONNECTION = mongoose.connection;
  }
}
```

If a connection is already held the body is skipped. Otherwise `connect`
runs: on resolution a fresh handle becomes `mongoose.connection` and is
stored; on rejection the `await` re-raises to the caller and
`DB_CONNECTION` stays unset. -/
def start (env : ConnectEnv) (db : MongooseDatabase) (st : DbState) : StartResult :=
  match db.DB_CONNECTION with
  | some _ => ⟨db, st, none⟩
  | none =>
      match env db.DB_URI with
      | Except.error e => ⟨db, st, some e⟩
      | Except.ok _ =>
          let h := st.handlesCreated
          ⟨{ db with DB_CONNECTION := some h },
           { handlesCreated := st.handlesCreated + 1, current := some h }, none⟩

/-- `mongoose.Connection.close()` on handle `h`: tears the connection down
if it is the established one, and resolves as a no-op otherwise (closing
an already-closed connection does not reject). -/
def closeHandle (st : DbState) (h : Nat) : DbState :=
  if st.current = some h then { st with current := none } else st

/-- `MongooseDatabase.close` (jest/setup-db.ts lines 53–55):
`this.DB_CONNECTION?.close()` — optional chaining, so a never-started
instance does nothing; the stored handle is not cleared. Every operation
in the body resolves, so `close` is total (no `thrown` component). -/
def close (db : MongooseDatabase) (st : DbState) : MongooseDatabase × DbState :=
  match db.DB_CONNECTION with
  | none => (db, st)
  | some h => (db, closeHandle st h)

end MongooseDatabase

namespace Server

/-- Result of `databaseSetup()`: log entries written during the call and
the rejection surfaced to the caller, if any. -/
structure SetupResult where
  logs : List LogEntry
  thrown : Option String
deriving DecidableEq, Repr

/-- The logging listener `databaseSetup` registers with
`mongoose.connection.on('error', ...)`: an error event later emitted by an
established connection produces this log line (note the source uses
`Logger.info` for it). -/
def connectionErrorListener (errMessage : String) : LogEntry :=
  LogEntry.info ("error to connect - MongoDB: Error: " ++ errMessage)

/-- `Server.databaseSetup` (src lines 105–117):

```ts
if (!this.DATABASE_URI) { Logger.error('Database URI not provided'); return; }
mongoose.connection.once('connected', () => Logger.info('connect to MongoDB '));
mongoose.connection?.on('error', (err) => Logger.info(`error to connect - ...`));
await mongoose.connect(this.DATABASE_URI);
```

Without a URI it logs and returns without raising. With one, it registers
the listeners and awaits `connect`; the `await` has no surrounding
try/catch, so a rejection propagates to the caller. -/
def databaseSetup (DATABASE_URI : Option String) (env : ConnectEnv) : SetupResult :=
  match DATABASE_URI with
  | none => ⟨[LogEntry.error "Database URI not provided"], none⟩
  | some uri =>
      match env uri with
      | Except.error e => ⟨[], some e⟩
      | Except.ok _ => ⟨[LogEntry.info "connect to MongoDB "], none⟩

end Server

/-! ## Theorems -/

/-- C2: every generic runtime error (an `Error` instance with no explicit
HTTP status) reaching the error translator yields exactly status 500 with
body `{message: "Internal Server Error"}`; its message and stack are
logged server-side; and the response body never carries the original
error text. -/
theorem C2_generic_error_translated_to_500 (m stack : String) :
    Server.errorTranslator (ServerError.err m stack) =
      (⟨500, Body.message "Internal Server Error"⟩, [LogEntry.serverError m stack]) ∧
    (m ≠ "Internal Server Error" →
      (Server.errorTranslator (ServerError.err m stack)).1.body ≠ Body.message m) := by
  refine ⟨rfl, fun hm hbody => hm ?_⟩
  have : Body.message "Internal Server Error" = Body.message m := hbody
  cases this
  rfl

theorem C2_generic_error_translated_to_500_witness :
    Server.errorTranslator (ServerError.err "boom" "stacktrace") =
      (⟨500, Body.message "Internal Server Error"⟩,
       [LogEntry.serverError "boom" "stacktrace"]) ∧
    ("boom" ≠ "Internal Server Error" →
      (Server.errorTranslator (ServerError.err "boom" "stacktrace")).1.body ≠
        Body.message "boom") :=
  C2_generic_error_translated_to_500 "boom" "stacktrace"

/-- C6: every error carrying an explicit HTTP status (an `HttpError`)
is translated to a response with that status whose body carries the
error's message; when the carried status is 500 the full serialized error
is logged, and otherwise nothing is logged. -/
theorem C6_http_error_translated_with_carried_status (s : Nat) (m : String) :
    (Server.errorTranslator (ServerError.http s m)).1 = ⟨s, Body.message m⟩ ∧
    (s = 500 →
      (Server.errorTranslator (ServerError.http s m)).2 =
        [LogEntry.serializedHttpError 500 m]) ∧
    (s ≠ 500 → (Server.errorTranslator (ServerError.http s m)).2 = []) := by
  refine ⟨rfl, fun h500 => ?_, fun hne => ?_⟩
  · subst h500; rfl
  · simp [Server.errorTranslator, hne]

theorem C6_http_error_translated_with_carried_status_witness :
    (Server.errorTranslator (ServerError.http 500 "fail")).1 =
      ⟨500, Body.message "fail"⟩ ∧
    (500 = 500 →
      (Server.errorTranslator (ServerError.http 500 "fail")).2 =
        [LogEntry.serializedHttpError 500 "fail"]) ∧
    (500 ≠ 500 → (Server.errorTranslator (ServerError.http 500 "fail")).2 = []) :=
  C6_http_error_translated_with_carried_status 500 "fail"

/-- C8: a `GET /health` request is answered `200 {status: "OK"}` for every
spec-validation configuration, every controller list and every store
state: the health route is installed before the validator middleware and
before any controller, so it wins first-match dispatch. -/
theorem C8_health_always_200_ok (validator : Request → Option (Nat × String))
    (controllers : List Controller) (store : Store)
    (body : List (String × String)) :
    Server.handle validator controllers store ⟨"GET", "/health", body⟩ =
      (store, ⟨200, Body.statusOK⟩) := rfl

/-- C9: `UserService.getUserById` never resolves to `null` despite its
declared `IUser | null` return type — absence is converted into a thrown
error — so the controller branch mapping a null result to 404 is
unreachable: the controller's response status is never 404. -/
theorem C9_getUserById_never_null_404_unreachable (store : Store) (id : String) :
    UserService.getUserById store id ≠ Except.ok none ∧
    (UserController.getUserById store id).status ≠ 404 := by
  cases h : findUserById store id <;>
    simp [UserService.getUserById, UserController.getUserById, h]

theorem C9_getUserById_never_null_404_unreachable_witness :
    UserService.getUserById [] "u1" ≠ Except.ok none ∧
    (UserController.getUserById [] "u1").status ≠ 404 :=
  C9_getUserById_never_null_404_unreachable [] "u1"

/-- C1: evaluation of the code at the failing input. A `GET /users/u1`
request against a store holding no user with id `u1` is answered with
status 500 and body `{error: "Error retrieving user by ID: User not
found"}` — not with the 404 the contract (`service.yaml`), the
controller's own 404 branch and the service's doc comment call for:
`UserService.getUserById` converts absence into a thrown error, and the
controller's catch maps every thrown error to 500. -/
theorem C1_missing_user_answered_500_not_404 :
    UserController.getUserById [] "u1" =
      ⟨500, Body.errorField ("Error retrieving user by ID: " ++ "User not found")⟩ ∧
    (UserController.getUserById [] "u1").status ≠ 404 := by
  exact ⟨rfl, by decide⟩

/-- C10: a create request whose email matches a stored user's email is
rejected by `UserService.createUser` with a message containing
`A user with this email already exists`, no document is written (the
resulting store is unchanged), and `UserController.createUser` maps the
rejection to HTTP 400. -/
theorem C10_duplicate_email_rejected (store : Store) (p : UserService.CreateParams)
    (u : IUser) (hmem : u ∈ store) (hemail : u.email = p.email) :
    UserService.createUser store p =
      Except.error ("Error creating user: " ++ "A user with this email already exists") ∧
    UserController.createUser store p =
      (store, ⟨400, Body.errorField
        ("Error creating user: " ++ "A user with this email already exists")⟩) ∧
    (∃ s : String,
      "Error creating user: " ++ "A user with this email already exists" =
        s ++ "A user with this email already exists") := by
  obtain ⟨v, hv⟩ : ∃ v, findUserByEmail store p.email = some v := by
    rw [← Option.isSome_iff_exists]
    unfold findUserByEmail
    rw [List.find?_isSome]
    exact ⟨u, hmem, by simp [hemail]⟩
  have hserv : UserService.createUser store p =
      Except.error ("Error creating user: " ++ "A user with this email already exists") := by
    unfold UserService.createUser
    rw [hv]
  refine ⟨hserv, ?_, ⟨"Error creating user: ", rfl⟩⟩
  unfold UserController.createUser
  rw [hserv]

theorem C10_duplicate_email_rejected_witness :
    UserService.createUser [⟨"u1", "Ann", "a@b.com", "2025-01-01"⟩]
        ⟨"u2", "Bob", "a@b.com", "2025-01-02"⟩ =
      Except.error ("Error creating user: " ++ "A user with this email already exists") ∧
    UserController.createUser [⟨"u1", "Ann", "a@b.com", "2025-01-01"⟩]
        ⟨"u2", "Bob", "a@b.com", "2025-01-02"⟩ =
      ([⟨"u1", "Ann", "a@b.com", "2025-01-01"⟩], ⟨400, Body.errorField
        ("Error creating user: " ++ "A user with this email already exists")⟩) ∧
    (∃ s : String,
      "Error creating user: " ++ "A user with this email already exists" =
        s ++ "A user with this email already exists") :=
  C10_duplicate_email_rejected [⟨"u1", "Ann", "a@b.com", "2025-01-01"⟩]
    ⟨"u2", "Bob", "a@b.com", "2025-01-02"⟩ ⟨"u1", "Ann", "a@b.com", "2025-01-01"⟩
    (List.mem_singleton.mpr rfl) rfl

/-- C5: a `POST /users` request whose body lacks the required `email`
property (while carrying `id` and `name`) is rejected by the contract
validator with a 400 response naming the missing property; the store is
unchanged and the outcome is the same for every controller list, so no
controller business logic runs and no write occurs. -/
theorem C5_invalid_body_rejected_before_controllers
    (controllers : List Controller) (store : Store)
    (body : List (String × String))
    (hid : hasField body "id" = true) (hname : hasField body "name" = true)
    (hemail : hasField body "email" = false) :
    Server.handle contractValidator controllers store ⟨"POST", "/users", body⟩ =
      (store, ⟨400, Body.message
        ("request" ++ "/body must have required property " ++ "email")⟩) := by
  simp [Server.handle, contractValidator, NewUser.requiredFields, List.find?,
        hid, hname, hemail, Server.errorTranslator]

theorem C5_invalid_body_rejected_before_controllers_witness :
    Server.handle contractValidator [] []
        ⟨"POST", "/users", [("id", "u1"), ("name", "Ann")]⟩ =
      ([], ⟨400, Body.message
        ("request" ++ "/body must have required property " ++ "email")⟩) :=
  C5_invalid_body_rejected_before_controllers [] [] [("id", "u1"), ("name", "Ann")]
    rfl rfl rfl

/-- C3: `MongooseDatabase.start` is idempotent: while a connection is
already held, `start` changes neither the instance nor the driver state
and raises nothing; consequently any two sequential `start` calls create
at most one new connection handle, whatever outcomes the driver produces. -/
theorem C3_start_idempotent :
    (∀ (env : ConnectEnv) (db : MongooseDatabase) (st : DbState) (h : Nat),
      db.DB_CONNECTION = some h →
      MongooseDatabase.start env db st = ⟨db, st, none⟩) ∧
    (∀ (env1 env2 : ConnectEnv) (db : MongooseDatabase) (st : DbState),
      ((MongooseDatabase.start env2 (MongooseDatabase.start env1 db st).db
          (MongooseDatabase.start env1 db st).st).st).handlesCreated ≤
        st.handlesCreated + 1) := by
  constructor
  · intro env db st h hconn
    unfold MongooseDatabase.start
    rw [hconn]
  · intro env1 env2 db st
    obtain ⟨uri, name, conn⟩ := db
    cases conn with
    | some h => simp [MongooseDatabase.start]
    | none =>
      cases he1 : env1 uri with
      | error e =>
        cases he2 : env2 uri with
        | error e2 => simp [MongooseDatabase.start, he1, he2]
        | ok u => simp [MongooseDatabase.start, he1, he2]
      | ok u => simp [MongooseDatabase.start, he1]

theorem C3_start_idempotent_witness :
    MongooseDatabase.start (fun _ => Except.ok ())
        ⟨"mongodb://db", "test", some 0⟩ ⟨1, some 0⟩ =
      ⟨⟨"mongodb://db", "test", some 0⟩, ⟨1, some 0⟩, none⟩ :=
  C3_start_idempotent.1 (fun _ => Except.ok ())
    ⟨"mongodb://db", "test", some 0⟩ ⟨1, some 0⟩ 0 rfl

/-- C4 counterexample: the claim "a connection error during
start()/databaseSetup is not thrown to the caller" fails at a concrete
input: with a configured URI whose `mongoose.connect` rejects, the
`await` in `databaseSetup` has no surrounding try/catch, so the rejection
surfaces to the caller. -/
theorem C4_counterexample_connect_failure_raises :
    (Server.databaseSetup (some "mongodb://db")
        (fun _ => Except.error "connect ECONNREFUSED")).thrown =
      some "connect ECONNREFUSED" := rfl

/-- C4 amended: a missing URI is logged (`Database URI not provided`) and
`databaseSetup` returns without raising; error events emitted by an
established connection are logged by the listener `databaseSetup`
registers; but a failure of the initial `mongoose.connect` is not caught —
both `databaseSetup` and `MongooseDatabase.start` propagate the rejection
to their caller. -/
theorem C4_database_connection_error_handling :
    (∀ env : ConnectEnv, Server.databaseSetup none env =
        ⟨[LogEntry.error "Database URI not provided"], none⟩) ∧
    (∀ e : String, Server.connectionErrorListener e =
        LogEntry.info ("error to connect - MongoDB: Error: " ++ e)) ∧
    (∀ (uri : String) (env : ConnectEnv) (e : String), env uri = Except.error e →
        Server.databaseSetup (some uri) env = ⟨[], some e⟩) ∧
    (∀ (env : ConnectEnv) (db : MongooseDatabase) (st : DbState) (e : String),
        db.DB_CONNECTION = none → env db.DB_URI = Except.error e →
        MongooseDatabase.start env db st = ⟨db, st, some e⟩) := by
  refine ⟨fun env => rfl, fun e => rfl, fun uri env e he => ?_,
    fun env db st e hc he => ?_⟩
  · simp [Server.databaseSetup, he]
  · simp [MongooseDatabase.start, hc, he]

theorem C4_database_connection_error_handling_witness :
    Server.databaseSetup (some "mongodb://db")
        (fun _ => Except.error "ECONNREFUSED") = ⟨[], some "ECONNREFUSED"⟩ :=
  C4_database_connection_error_handling.2.2.1 "mongodb://db"
    (fun _ => Except.error "ECONNREFUSED") "ECONNREFUSED" rfl

/-- Closing a connection handle twice is the same as closing it once:
the second `Connection.close` finds the connection no longer current and
resolves as a no-op. -/
theorem closeHandle_idem (st : DbState) (h : Nat) :
    MongooseDatabase.closeHandle (MongooseDatabase.closeHandle st h) h =
      MongooseDatabase.closeHandle st h := by
  unfold MongooseDatabase.closeHandle
  by_cases hcur : st.current = some h
  · simp [hcur]
  · simp [hcur]

/-- C7: `MongooseDatabase.close` is idempotent and total: on an instance
that never connected it is a no-op (the optional chain short-circuits),
and a second `close` right after a first changes nothing; no operation in
its body can raise, which the model reflects by `close` returning plain
state rather than an exceptional result. -/
theorem C7_close_idempotent_total :
    (∀ (db : MongooseDatabase) (st : DbState), db.DB_CONNECTION = none →
        MongooseDatabase.close db st = (db, st)) ∧
    (∀ (db : MongooseDatabase) (st : DbState),
        MongooseDatabase.close (MongooseDatabase.close db st).1
          (MongooseDatabase.close db st).2 = MongooseDatabase.close db st) := by
  constructor
  · intro db st hc
    unfold MongooseDatabase.close
    rw [hc]
  · intro db st
    obtain ⟨uri, name, conn⟩ := db
    cases conn with
    | none => rfl
    | some h => simp [MongooseDatabase.close, closeHandle_idem]

theorem C7_close_idempotent_total_witness :
    MongooseDatabase.close ⟨"mongodb://db", "test", none⟩ ⟨0, none⟩ =
      (⟨"mongodb://db", "test", none⟩, ⟨0, none⟩) :=
  C7_close_idempotent_total.1 ⟨"mongodb://db", "test", none⟩ ⟨0, none⟩ rfl

end Boilerplate
